import Mathlib

/-!
Shallow embedding of the DIAL server of the `script.appcast` repository
(`resources/lib/servers/dial_server.py`, `resources/lib/servers/dial_helper.py`,
`resources/lib/helpers/utils.py`), together with proofs about the embedded code.

Modelling conventions:
* Python `str` is Lean `String` (or `List Char` inside parsers), `bytes` is
  `List Nat` (one entry per byte).
* Python exceptions are explicit: fallible embedded functions return
  `Except PyExc` values, and each HTTP handler returns a `HandlerResult` that
  is either a sent response plus the post-state, or a propagating exception
  plus the post-state (so a leaked mutex is observable).
* The single registry mutex (`MUTEX` in the source) is a boolean field of the
  server state; `MUTEX.acquire(False)` is modelled by inspecting that field.
* `float` values (the parsed `clientDialVer`) are modelled as exact rationals.
-/

namespace AppCast

/-- Python exception classes that the embedded code paths can raise. -/
inductive PyExc where
  | unicodeDecodeError
  | attributeError
  | indexError
  | valueError
  | jsonDecodeError
  | appError (msg : String)
deriving Repr, DecidableEq

/-- Python `bytes`: a list of byte values. -/
abbrev PyBytes := List Nat

/-- A Python value that is either `bytes` or `str`: `handle_dial_data` passes
either kind to `utils.is_ascii` depending on the request method. -/
inductive PyData where
  | bytes (b : PyBytes)
  | str (s : String)

/-- `DialStatus.STOPPED` from `dial_helper.py` (the states are plain ints). -/
def DialStatus.STOPPED : Nat := 0

/-- `DialStatus.HIDE` from `dial_helper.py`. -/
def DialStatus.HIDE : Nat := 1

/-- `DialStatus.RUNNING` from `dial_helper.py`. -/
def DialStatus.RUNNING : Nat := 2

/-- `DialStatus.ERROR_NOT_IMPLEMENTED` from `dial_helper.py`. -/
def DialStatus.ERROR_NOT_IMPLEMENTED : Nat := 3

/-- `DialStatus.ERROR_FORBIDDEN` from `dial_helper.py`. -/
def DialStatus.ERROR_FORBIDDEN : Nat := 4

/-- `DialStatus.ERROR_UNAUTH` from `dial_helper.py`. -/
def DialStatus.ERROR_UNAUTH : Nat := 5

/-- `DialStatus.ERROR` from `dial_helper.py`. -/
def DialStatus.ERROR : Nat := 6

/-- `DIAL_VERSION` from `dial_server.py`. -/
def DIAL_VERSION : String := "2.2"

/-- `DIAL_MAX_PAYLOAD` from `dial_server.py`. -/
def DIAL_MAX_PAYLOAD : Nat := 4096

/-- `DIAL_MAX_ADDITIONALURL` from `dial_server.py`. -/
def DIAL_MAX_ADDITIONALURL : Nat := 1024

/-- `DIAL_DATA_SIZE` from `dial_server.py`. -/
def DIAL_DATA_SIZE : Nat := 8 * 1024

/-- `DIAL_DATA_MAX_PAYLOAD` from `dial_server.py`. -/
def DIAL_DATA_MAX_PAYLOAD : Nat := 4096

/-! ### Python string primitives used by the server -/

/-- Hexadecimal digit value of a character, if any (helper for `%`-unquoting
and for the JSON string parser). -/
def hexVal? (c : Char) : Option Nat :=
  if '0' ≤ c ∧ c ≤ '9' then some (c.toNat - 48)
  else if 'a' ≤ c ∧ c ≤ 'f' then some (c.toNat - 87)
  else if 'A' ≤ c ∧ c ≤ 'F' then some (c.toNat - 55)
  else none

/-- Decimal digit value of a character, if any. -/
def digitVal? (c : Char) : Option Nat :=
  if '0' ≤ c ∧ c ≤ '9' then some (c.toNat - 48) else none

/-- Python `str.split(sep)` for a one-character separator: `''.split('/')`
gives `['']`, `'/run'.split('/')` gives `['', 'run']`. -/
def pySplitChar (sep : Char) : List Char → List (List Char)
  | [] => [[]]
  | c :: rest =>
    if c = sep then [] :: pySplitChar sep rest
    else
      match pySplitChar sep rest with
      | [] => [[c]]
      | g :: gs => (c :: g) :: gs

/-- Split a character list at the first occurrence of `sep`: the part before
it, and (when `sep` occurs) the part after it. -/
def splitAtFirst (sep : Char) : List Char → List Char × Option (List Char)
  | [] => ([], none)
  | c :: rest =>
    if c = sep then ([], some rest)
    else
      let r := splitAtFirst sep rest
      (c :: r.1, r.2)

/-- Python `lst[-2]`: second element from the end, `IndexError` when the list
has fewer than two elements. -/
def pyNegIndex2 (l : List (List Char)) : Except PyExc String :=
  match l.reverse with
  | _ :: x :: _ => .ok ⟨x⟩
  | _ => .error .indexError

/-- Worker for `pyReplace`; the fuel is the length of the subject string and
each step consumes at least one character. -/
def replaceAux (old new : List Char) : Nat → List Char → List Char
  | 0, l => l
  | _ + 1, [] => []
  | fuel + 1, c :: rest =>
    if old.isPrefixOf (c :: rest) then
      new ++ replaceAux old new fuel ((c :: rest).drop old.length)
    else
      c :: replaceAux old new fuel rest

/-- Python `str.replace(old, new)` for non-empty `old`: replace every
non-overlapping occurrence, scanning left to right. -/
def pyReplace (s old new : String) : String :=
  ⟨replaceAux old.data new.data s.data.length s.data⟩

/-- Python `str.endswith`. -/
def pyEndsWith (s suffixStr : String) : Bool :=
  suffixStr.data.isSuffixOf s.data

/-- Python `str.startswith`. -/
def pyStartsWith (s prefixStr : String) : Bool :=
  prefixStr.data.isPrefixOf s.data

/-- Python `s[:n]`. -/
def pyTake (n : Nat) (s : String) : String := ⟨s.data.take n⟩

/-- `urlparse(url).path`: the part before the first `?`, with any `#`-fragment
removed first (scheme/netloc handling is not needed for request targets). -/
def pyUrlsplitPath (url : String) : String :=
  ⟨(splitAtFirst '?' (splitAtFirst '#' url.data).1).1⟩

/-- `urlparse(url).query`: the part after the first `?` (fragment removed
first), empty when there is no `?`. -/
def pyUrlsplitQuery (url : String) : String :=
  ⟨((splitAtFirst '?' (splitAtFirst '#' url.data).1).2).getD []⟩

/-- Worker for `urllib.parse.unquote`. The model decodes `%XX` escapes whose
value is below 128 and leaves other text unchanged; multi-byte UTF-8 percent
sequences (values `>= 0x80`) are kept literally rather than decoded, which is
the only divergence from CPython and is not exercised by any claim. -/
def pyUnquoteChars : List Char → List Char
  | [] => []
  | '%' :: a :: b :: rest =>
    match hexVal? a, hexVal? b with
    | some x, some y =>
      let v := x * 16 + y
      if v < 128 then Char.ofNat v :: pyUnquoteChars rest
      else '%' :: a :: b :: pyUnquoteChars rest
    | _, _ => '%' :: pyUnquoteChars (a :: b :: rest)
  | c :: rest => c :: pyUnquoteChars rest

/-- `urllib.parse.unquote` (ASCII model, see `pyUnquoteChars`). -/
def pyUnquote (s : String) : String := ⟨pyUnquoteChars s.data⟩

/-- `xml.sax.saxutils.escape` on one character. -/
def xmlEscapeChar (c : Char) : String :=
  if c = '&' then "&amp;"
  else if c = '<' then "&lt;"
  else if c = '>' then "&gt;"
  else String.singleton c

/-- `xml.sax.saxutils.escape`: escape `&`, `<` and `>`. -/
def xmlEscape (s : String) : String :=
  String.join (s.data.map xmlEscapeChar)

/-- `utils.url_decode_xml_encode`: URL-unescape, then XML-escape. -/
def url_decode_xml_encode (s : String) : String :=
  xmlEscape (pyUnquote s)

/-- `utils.get_string_size`: byte size of the UTF-8 encoding. -/
def get_string_size (s : String) : Nat := s.utf8ByteSize

/-- `utils.is_ascii`. The source runs `byte_string.decode('ascii')` inside
`try: ... except UnicodeEncodeError: return False`. On `bytes` input a failed
decode raises `UnicodeDecodeError`, which the `except` clause does not match,
so the exception propagates and the function can only return `True`; on `str`
input the attribute access `.decode` itself raises `AttributeError`. -/
def is_ascii : PyData → Except PyExc Bool
  | .bytes b => if b.all (fun x => x < 128) then .ok true else .error .unicodeDecodeError
  | .str _ => .error .attributeError

/-- `bytes.decode('utf-8')`/`bytes.decode('ascii')` for byte lists that are
known to be all below 128 (the only situation the handlers decode in). -/
def pyDecodeAscii (b : PyBytes) : String := ⟨b.map Char.ofNat⟩

/-- `utils.fix_return_chars` helper: Python `str.splitlines` restricted to
`\n` terminators (the only terminator in the source's templates). -/
def pySplitlines (s : String) : List (List Char) :=
  if s.data = [] then []
  else
    let ps := pySplitChar '\n' s.data
    if ps.getLast? = some [] then ps.dropLast else ps

/-- `utils.fix_return_chars`: rejoin the lines with `\r\n`. -/
def fix_return_chars (s : String) : String :=
  ⟨List.intercalate ['\r', '\n'] (pySplitlines s)⟩

/-! ### `urllib.parse` form decoding (`parse_qs`) -/

/-- `'+'` to space translation done by `unquote_plus` (used by `parse_qsl`). -/
def pyUnquotePlus (s : String) : String :=
  pyUnquote ⟨s.data.map (fun c => if c = '+' then ' ' else c)⟩

/-- `urllib.parse.parse_qsl` with default arguments: fields are separated by
`&`; a field without `=` or with an empty value is skipped
(`keep_blank_values=False`); names and values are `unquote_plus`-decoded. -/
def pyParseQsl (s : String) : List (String × String) :=
  (pySplitChar '&' s.data).filterMap fun field =>
    match splitAtFirst '=' field with
    | (_, none) => none
    | (name, some value) =>
      if value = [] then none
      else some (pyUnquotePlus ⟨name⟩, pyUnquotePlus ⟨value⟩)

/-- Grouping step of `parse_qs`: append a value to the entry of `k`, keeping
first-seen key order. -/
def qsInsert (acc : List (String × List String)) (k : String) (v : String) :
    List (String × List String) :=
  match acc with
  | [] => [(k, [v])]
  | (k', vs) :: rest =>
    if k' = k then (k', vs ++ [v]) :: rest else (k', vs) :: qsInsert rest k v

/-- `urllib.parse.parse_qs` with default arguments: every value of a key is
kept, in a list, in first-seen key order. -/
def pyParseQs (s : String) : List (String × List String) :=
  (pyParseQsl s).foldl (fun acc kv => qsInsert acc kv.1 kv.2) []

/-- `query_params.get(key, [default])[0]` as used for `clientDialVer`. -/
def qpFirst (qp : List (String × List String)) (key dflt : String) : String :=
  match qp.find? (fun kv => kv.1 == key) with
  | some kv => kv.2.headD dflt
  | none => dflt

/-- Numeric value of a list of decimal digit characters (leading-zero safe);
only called on all-digit lists. -/
def natOfDigits (l : List Char) : Nat :=
  l.foldl (fun acc c => acc * 10 + (c.toNat - 48)) 0

/-- Python `float()` on simple decimal literals (optional sign, digits, one
optional dot), surrounding whitespace stripped; other accepted `float` inputs
(exponents, `inf`, `nan`) are outside the model. The result is the exact
decimal rational; CPython rounds it to a binary double, but every comparison
the server performs (`< 2.09`) gives the same verdict on the exact decimal and
on the rounded double for short decimal inputs, because rounding to double is
monotone and `2.09` rounds to itself-as-literal on both sides. -/
def pyFloatCore (l : List Char) : Option ℚ :=
  let p := splitAtFirst '.' l
  match p.2 with
  | none =>
    if p.1 ≠ [] ∧ p.1.all (fun c => (digitVal? c).isSome) then
      some (natOfDigits p.1 : ℚ)
    else none
  | some fp =>
    if (p.1 ≠ [] ∨ fp ≠ []) ∧ p.1.all (fun c => (digitVal? c).isSome) ∧
        fp.all (fun c => (digitVal? c).isSome) then
      some ((natOfDigits p.1 * 10 ^ fp.length + natOfDigits fp : ℚ) / 10 ^ fp.length)
    else none

/-- `float(s)`, raising `ValueError` on text the model cannot parse. -/
def pyFloat (s : String) : Except PyExc ℚ :=
  let l := (s.data.dropWhile (fun c => c = ' ')).reverse.dropWhile (fun c => c = ' ') |>.reverse
  match l with
  | '-' :: rest => match pyFloatCore rest with
    | some q => .ok (-q)
    | none => .error .valueError
  | '+' :: rest => match pyFloatCore rest with
    | some q => .ok q
    | none => .error .valueError
  | _ => match pyFloatCore l with
    | some q => .ok q
    | none => .error .valueError

/-! ### `json.dumps` / `json.loads` for flat `str -> str` dicts

`dial_helper.store_dial_data` serializes the dial-data dict with
`json.dumps(data)` (default arguments: `ensure_ascii=True`, separators
`', '` and `': '`) and `retrieve_dial_data` reads it back with `json.loads`.
The embedding covers exactly the documents this code produces and consumes:
one JSON object whose members are strings. -/

/-- Lowercase hexadecimal digit character (as `'%04x' % n` produces). -/
def hexDig (d : Nat) : Char :=
  if d < 10 then Char.ofNat (48 + d) else Char.ofNat (87 + d)

/-- Four lowercase hex digits of `n < 0x10000`. -/
def toHex4 (n : Nat) : List Char :=
  [hexDig (n / 4096 % 16), hexDig (n / 256 % 16), hexDig (n / 16 % 16), hexDig (n % 16)]

/-- JSON escaping of one character, as CPython's ASCII encoder does it:
printable ASCII other than `"` and `\` is literal; the short escapes cover
`\b \t \n \f \r`; every other character becomes `\uXXXX` (a surrogate pair
for code points above `0xFFFF`). -/
def escChar (c : Char) : List Char :=
  let n := c.toNat
  if c = '"' then ['\\', '"']
  else if c = '\\' then ['\\', '\\']
  else if c = '\x08' then ['\\', 'b']
  else if c = '\x09' then ['\\', 't']
  else if c = '\x0a' then ['\\', 'n']
  else if c = '\x0c' then ['\\', 'f']
  else if c = '\x0d' then ['\\', 'r']
  else if 0x20 ≤ n ∧ n ≤ 0x7e then [c]
  else if n < 0x10000 then '\\' :: 'u' :: toHex4 n
  else
    let m := n - 0x10000
    ('\\' :: 'u' :: toHex4 (0xd800 + m / 0x400)) ++ ('\\' :: 'u' :: toHex4 (0xdc00 + m % 0x400))

/-- JSON escaping of a whole string body. -/
def escString : List Char → List Char
  | [] => []
  | c :: rest => escChar c ++ escString rest

/-- One serialized object member, `"key": "value"`. -/
def itemChars (p : String × String) : List Char :=
  '"' :: escString p.1.data ++ '"' :: ':' :: ' ' :: '"' :: escString p.2.data ++ ['"']

/-- The remaining members after the first one, each preceded by the `', '`
separator, ending with the closing brace. -/
def moreChars : List (String × String) → List Char
  | [] => ['\x7d']
  | p :: ps => ',' :: ' ' :: (itemChars p ++ moreChars ps)

/-- `json.dumps` of a flat `str -> str` dict in its insertion order. -/
def pyJsonDumps (d : List (String × String)) : String :=
  match d with
  | [] => ⟨['\x7b', '\x7d']⟩
  | p :: ps => ⟨'\x7b' :: (itemChars p ++ moreChars ps)⟩

/-- Read four hex digits (either case, as `json` accepts). -/
def parseHex4 : List Char → Option (Nat × List Char)
  | a :: b :: c :: d :: rest =>
    match hexVal? a, hexVal? b, hexVal? c, hexVal? d with
    | some va, some vb, some vc, some vd => some (va * 4096 + vb * 256 + vc * 16 + vd, rest)
    | _, _, _, _ => none
  | _ => none

/-- Decode one escape sequence after a `\`, as `json.decoder.py_scanstring`
does, combining `\uXXXX\uXXXX` surrogate pairs. A lone surrogate escape (kept
as-is by CPython) has no `Char` representation, so the model rejects it; the
serializer never produces one. -/
def parseEsc : List Char → Option (Char × List Char)
  | [] => none
  | e :: rest =>
    if e = '"' then some ('"', rest)
    else if e = '\\' then some ('\\', rest)
    else if e = '/' then some ('/', rest)
    else if e = 'b' then some ('\x08', rest)
    else if e = 'f' then some ('\x0c', rest)
    else if e = 'n' then some ('\x0a', rest)
    else if e = 'r' then some ('\x0d', rest)
    else if e = 't' then some ('\x09', rest)
    else if e = 'u' then
      match parseHex4 rest with
      | none => none
      | some (n, r2) =>
        if 0xd800 ≤ n ∧ n ≤ 0xdbff then
          match r2 with
          | '\\' :: 'u' :: r3 =>
            match parseHex4 r3 with
            | some (n2, r4) =>
              if 0xdc00 ≤ n2 ∧ n2 ≤ 0xdfff then
                some (Char.ofNat (0x10000 + (n - 0xd800) * 0x400 + (n2 - 0xdc00)), r4)
              else none
            | none => none
          | _ => none
        else if n.isValidChar then some (Char.ofNat n, r2) else none
    else none

/-- JSON whitespace skipping (`' \t\n\r'`). -/
def isJsonWs (c : Char) : Bool :=
  c = ' ' ∨ c = '\t' ∨ c = '\n' ∨ c = '\r'

/-- Skip JSON whitespace. -/
def skipWs (l : List Char) : List Char := l.dropWhile isJsonWs

/-- `py_scanstring` after the opening quote, in strict mode: literal text up
to the closing quote, no raw control characters, escapes via `parseEsc`. The
fuel bounds the number of decoded characters; `length + 1` always suffices. -/
def parseStringBodyF : Nat → List Char → Option (List Char × List Char)
  | 0, _ => none
  | _ + 1, [] => none
  | fuel + 1, c :: rest =>
    if c = '"' then some ([], rest)
    else if c = '\\' then
      match parseEsc rest with
      | none => none
      | some (ch, r2) =>
        match parseStringBodyF fuel r2 with
        | none => none
        | some (s, r3) => some (ch :: s, r3)
    else if c.toNat < 0x20 then none
    else
      match parseStringBodyF fuel rest with
      | none => none
      | some (s, r2) => some (c :: s, r2)

/-- Member loop of `json.decoder.JSONObject`, entered at the opening quote of
a key, restricted to string values (the only values these documents hold).
The fuel bounds the number of members; `length + 1` always suffices. -/
def parseMembersF : Nat → List Char → Option (List (String × String) × List Char)
  | 0, _ => none
  | fuel + 1, l =>
    match l with
    | '"' :: r =>
      match parseStringBodyF (r.length + 1) r with
      | none => none
      | some (key, r2) =>
        match skipWs r2 with
        | ':' :: r4 =>
          match skipWs r4 with
          | '"' :: r6 =>
            match parseStringBodyF (r6.length + 1) r6 with
            | none => none
            | some (value, r7) =>
              match skipWs r7 with
              | '\x7d' :: r9 => some ([(⟨key⟩, ⟨value⟩)], r9)
              | ',' :: r9 =>
                match parseMembersF fuel (skipWs r9) with
                | none => none
                | some (pairs, rr) => some ((⟨key⟩, ⟨value⟩) :: pairs, rr)
              | _ => none
          | _ => none
        | _ => none
    | _ => none

/-- Python `dict` insertion: replace the value in place when the key exists,
append otherwise. -/
def pyDictSet : List (String × String) → String → String → List (String × String)
  | [], k, v => [(k, v)]
  | (k', v') :: rest, k, v =>
    if k' = k then (k', v) :: rest else (k', v') :: pyDictSet rest k v

/-- `dict(pairs)`: later duplicates overwrite, first occurrence keeps its
position (as `JSONObject` builds its result). -/
def toPyDict (l : List (String × String)) : List (String × String) :=
  l.foldl (fun acc kv => pyDictSet acc kv.1 kv.2) []

/-- `json.loads` restricted to one object of string members: optional leading
whitespace, the object, optional trailing whitespace, nothing else. -/
def pyJsonLoads (s : String) : Option (List (String × String)) :=
  match skipWs s.data with
  | '\x7b' :: r =>
    let afterObj : Option (List (String × String) × List Char) :=
      match r with
      | '"' :: _ => parseMembersF (r.length + 1) r
      | _ =>
        match skipWs r with
        | '\x7d' :: rest => some ([], rest)
        | '"' :: _ => parseMembersF ((skipWs r).length + 1) (skipWs r)
        | _ => none
    match afterObj with
    | some (pairs, rest) => if skipWs rest = [] then some (toPyDict pairs) else none
    | none => none
  | _ => none

/-! ### DIAL Data Store -/

/-- Modelled from the spec: the abstract file-backed store behind
`helpers/file_ops.py` (absent from `src/`), "a file-backed store for dial-data
blobs (load/save by application name)" with save, load and existence test by
path. The newest save of a path shadows older ones. File contents are the
saved text (the source stores the UTF-8 encoding of it, which decodes back to
the same text). -/
def FileStore := List (String × String)

/-- Modelled from the spec: `file_ops.save_file_def`. -/
def save_file_def (fs : FileStore) (path content : String) : FileStore :=
  (path, content) :: fs

/-- Modelled from the spec: `file_ops.file_exists`. -/
def file_exists (fs : FileStore) (path : String) : Bool :=
  ((fs : List (String × String)).find? (fun kv => kv.1 == path)).isSome

/-- Modelled from the spec: `file_ops.load_file_def`. -/
def load_file_def (fs : FileStore) (path : String) : Option String :=
  ((fs : List (String × String)).find? (fun kv => kv.1 == path)).map (·.2)

/-- `dial_helper.store_dial_data`: serialize the dict and save it under
`dial_data/{app_name}.json`. -/
def store_dial_data (app_name : String) (data : List (String × String))
    (fs : FileStore) : FileStore :=
  save_file_def fs ("dial_data/" ++ app_name ++ ".json") (pyJsonDumps data)

/-- `dial_helper.retrieve_dial_data`: empty dict when the file does not exist,
otherwise the parsed contents (`json.loads` failure raises). -/
def retrieve_dial_data (app_name : String) (fs : FileStore) :
    Except PyExc (List (String × String)) :=
  let file_path := "dial_data/" ++ app_name ++ ".json"
  if ¬ file_exists fs file_path then .ok []
  else
    match load_file_def fs file_path with
    | none => .ok []
    | some content =>
      match pyJsonLoads content with
      | some d => .ok d
      | none => .error .jsonDecodeError

/-! ### Server data model -/

/-- A registered DIAL application: the class attributes and mutable instance
attributes of a `DialApp` (see `apps/dial_app_test/dial_app_test.py` and
`register_app`), plus its four DIAL callbacks. A callback is app-provided code
that can raise: the zero-argument callbacks are modelled by their outcome, the
start callback by a function of its three arguments. -/
structure DialApp where
  KODI_ADDON_ID : String
  DIAL_APP_NAME : String
  DIAL_ORIGINS : List String
  USE_ADDITIONAL_DATA : Bool
  ENABLE_DATABASE : Bool
  state : Nat
  last_payload : String
  dial_data : List (String × String)
  dial_cb_start : String → List (String × List String) → Option String → Except PyExc Nat
  dial_cb_stop : Except PyExc Unit
  dial_cb_status : Except PyExc Nat
  dial_cb_hide : Except PyExc Nat

/-- Ambient device facts the server reads from its host: the LAN address
(`kodi_ops.get_local_ip()` / `xbmc.getIPAddress()`, the same Kodi accessor),
the configured DIAL port (`G.DIAL_SERVER_PORT`) and the device identity
strings used by the descriptor document. -/
structure Config where
  local_ip : String
  dial_port : Nat
  friendly_name : String
  manufacturer_name : String
  model_name : String
  device_uuid : String

/-- The shared mutable server state: the `APPS` registry, the `MUTEX` flag
(true = currently held) and the dial-data file store. -/
structure ServerState where
  apps : List DialApp
  mutexHeld : Bool
  fs : FileStore

/-- What an HTTP handler sends: a full response text via `call_response`, a
bare status line via `call_error`, or nothing at all (the source's
`handle_request` falls through silently on unrouted paths). -/
inductive HttpOut where
  | response (body : String)
  | error (code : Nat) (msg : String)
  | nothing

/-- Result of running a handler: a sent output plus the post-state, or a
propagating Python exception plus the post-state at the raise point (which
records whether the mutex was still held). -/
inductive HandlerResult where
  | ok (out : HttpOut) (s : ServerState)
  | exc (e : PyExc) (s : ServerState)

/-- `str(origin_header)` as `str.format` renders it: `None` for a missing
header. -/
def fmtOrigin (o : Option String) : String := o.getD "None"

/-- Python truthiness of the origin header: present and non-empty. -/
def originTruthy (o : Option String) : Bool :=
  match o with
  | none => false
  | some s => s ≠ ""

/-- `OPTIONS_RESPONSE.format(origin=..., methods=...)` from `dial_helper.py`. -/
def OPTIONS_RESPONSE_fmt (origin : Option String) (methods : String) : String :=
  "HTTP/1.1 204 No Content\r\n" ++
  "Access-Control-Allow-Methods: " ++ methods ++ "\r\n" ++
  "Access-Control-Max-Age: 86400\r\n" ++
  "Access-Control-Allow-Origin: " ++ fmtOrigin origin ++ "\r\n" ++
  "Content-Length: 0\r\n" ++
  "\r\n"

/-- `STOP_RESPONSE.format(origin=...)` from `dial_helper.py`. -/
def STOP_RESPONSE_fmt (origin : Option String) : String :=
  "HTTP/1.1 200 OK\r\n" ++
  "Content-Type: text/plain\r\n" ++
  "Access-Control-Allow-Origin: " ++ fmtOrigin origin ++ "\r\n" ++
  "\r\n"

/-- `CREATED_RESPONSE.format(...)` from `dial_helper.py`. -/
def CREATED_RESPONSE_fmt (address : String) (dial_port : Nat) (app_name : String)
    (origin : Option String) : String :=
  "HTTP/1.1 201 Created\r\n" ++
  "Content-Type: text/plain\r\n" ++
  "Location: http://" ++ address ++ ":" ++ toString dial_port ++ "/apps/" ++ app_name ++
    "/run\r\n" ++
  "Access-Control-Allow-Origin: " ++ fmtOrigin origin ++ "\r\n" ++
  "\r\n"

/-- `RESPONSE_OK.format(origin=...)` from `dial_helper.py`. -/
def RESPONSE_OK_fmt (origin : Option String) : String :=
  "HTTP/1.1 200 OK\r\n" ++
  "Content-Type: text/plain\r\n" ++
  "Access-Control-Allow-Origin: " ++ fmtOrigin origin ++ "\r\n" ++
  "\r\n"

/-- `STATUS_RESPONSE.format(...)` from `dial_helper.py` (the source template's
`</state>` line is continued with a backslash, so `link` follows it with no
separator). -/
def STATUS_RESPONSE_fmt (origin : Option String) (dial_version app_name can_stop
    dial_state link dial_data : String) : String :=
  "HTTP/1.1 200 OK\r\n" ++
  "Content-Type: text/xml\r\n" ++
  "Access-Control-Allow-Origin: " ++ fmtOrigin origin ++ "\r\n" ++
  "\r\n" ++
  "<?xml version=\"1.0\" encoding=\"UTF-8\"?>\r\n" ++
  "<service xmlns=\"urn:dial-multiscreen-org:schemas:dial\" dialVer=\"" ++ dial_version ++
    "\">\r\n" ++
  "  <name>" ++ app_name ++ "</name>\r\n" ++
  "  <options allowStop=\"" ++ can_stop ++ "\"/>\r\n" ++
  "  <state>" ++ dial_state ++ "</state>" ++ link ++ "\r\n" ++
  "  <additionalData>" ++ dial_data ++ "</additionalData>\r\n" ++
  "</service>\r\n" ++
  "\r\n"

/-- `DD_XML.format(...)` from `ssdp_helper.py` (served for
`/ssdp/device-desc.xml`), before `fix_return_chars`. -/
def DD_XML_fmt (ip_addr : String) (dial_port : Nat) (friendly_name manufacturer_name
    model_name device_uuid : String) : String :=
  "HTTP/1.1 200 OK\n" ++
  "Content-Type: text/xml\n" ++
  "Application-URL: http://" ++ ip_addr ++ ":" ++ toString dial_port ++ "/apps/\n" ++
  "\n" ++
  "<?xml version=\"1.0\"?>\n" ++
  "<root xmlns=\"urn:schemas-upnp-org:device-1-0\" xmlns:r=\"urn:restful-tv-org:schemas:upnp-dd\">\n" ++
  "  <specVersion>\n" ++
  "  <major>1</major>\n" ++
  "  <minor>0</minor>\n" ++
  "  </specVersion>\n" ++
  "  <device>\n" ++
  "    <deviceType>urn:schemas-upnp-org:device:tvdevice:1</deviceType>\n" ++
  "    <friendlyName>" ++ friendly_name ++ "</friendlyName>\n" ++
  "    <manufacturer>" ++ manufacturer_name ++ "</manufacturer>\n" ++
  "    <modelName>" ++ model_name ++ "</modelName>\n" ++
  "    <UDN>uuid:" ++ device_uuid ++ "</UDN>\n" ++
  "  </device>\n" ++
  "</root>\n" ++
  "\n"

/-- `find_app`: first registered application with the given name, or none. -/
def find_app (apps : List DialApp) (app_name : String) : Option DialApp :=
  apps.find? (fun a => a.DIAL_APP_NAME == app_name)

/-- Mutation of the object returned by `find_app`: apply `f` to the first
application with the given name (Python mutates that list element in place). -/
def updateFirstApp (apps : List DialApp) (app_name : String) (f : DialApp → DialApp) :
    List DialApp :=
  match apps with
  | [] => []
  | a :: rest =>
    if a.DIAL_APP_NAME == app_name then f a :: rest
    else a :: updateFirstApp rest app_name f

/-- `host_matches` from `dial_server.py`: the body is
`# TODO: needed conversion from the same method of dial_server.c` followed by
`return True` — it matches every candidate unconditionally. -/
def host_matches (_origin _candidate : String) : Bool := true

/-- `re.match(candidate, origin)` truthiness for `origin_matches`. The model
interprets the pattern over a subset of regex syntax: `\x` is the literal
`x`, `.` matches any character, every other pattern character is literal, and
matching is anchored at the start with any remainder allowed. No declared
origin pattern exercised by a claim leaves this subset. -/
def reMatchSub : List Char → List Char → Bool
  | [], _ => true
  | '\\' :: p :: ps, c :: ss => if c = p then reMatchSub ps ss else false
  | '\\' :: _ :: _, [] => false
  | '\\' :: [], _ => false
  | '.' :: ps, _ :: ss => reMatchSub ps ss
  | '.' :: _, [] => false
  | p :: ps, c :: ss => if c = p then reMatchSub ps ss else false
  | _ :: _, [] => false

/-- `origin_matches` from `dial_server.py`. -/
def origin_matches (origin candidate : String) : Bool :=
  reMatchSub candidate.data origin.data

/-- `is_uri_in_list` from `dial_server.py`: for an `https://` origin each
candidate is compared with `host_matches`, otherwise with `origin_matches`;
any match accepts. -/
def is_uri_in_list (origin : String) (origin_list : List String) : Bool :=
  if origin = "" ∨ origin_list = [] then false
  else
    let is_https := pyStartsWith origin "https://"
    origin_list.any fun candidate =>
      (is_https && host_matches origin candidate) ||
      (!is_https && origin_matches origin candidate)

/-- `is_allowed_origin` from `dial_server.py`: a missing/empty origin always
passes; if the mutex cannot be acquired the check fails safe (deny); else the
first registered application with the name and a non-empty origin list
decides via `is_uri_in_list`. -/
def is_allowed_origin (mutexHeld : Bool) (apps : List DialApp) (origin : String)
    (app_name : String) : Bool :=
  if origin = "" then true
  else if mutexHeld then false
  else
    apps.any fun app =>
      app_name == app.DIAL_APP_NAME &&
      !app.DIAL_ORIGINS.isEmpty &&
      is_uri_in_list origin app.DIAL_ORIGINS

/-! ### HTTP handlers (`dial_server.py`) -/

/-- `handle_app_status`. The `clientDialVer` query parameter is parsed with
`float()` before the mutex is acquired; the dial-data XML fragment is built
from the stored dict (the source's `try`/`except` around that loop cannot
fire in the model, whose loop body is total); the status callback runs while
the mutex is held and a raise propagates with it still held; a client version
below `2.09` downgrades a `HIDE` result to `STOPPED` for the response only. -/
def handle_app_status (_cfg : Config) (s : ServerState) (app_name : String)
    (origin_header : Option String) (query_params : List (String × List String)) :
    HandlerResult :=
  match pyFloat (qpFirst query_params "clientDialVer" "0.0") with
  | .error e => .exc e s
  | .ok client_version =>
    if s.mutexHeld then .ok (.error 500 "500 Internal Server Error") s
    else
      let s1 : ServerState := { s with mutexHeld := true }
      match find_app s1.apps app_name with
      | none => .ok (.error 404 "Not found") { s1 with mutexHeld := false }
      | some app =>
        let dial_data := String.join (app.dial_data.map fun kv =>
          "\r\n    <" ++ url_decode_xml_encode kv.1 ++ ">" ++
            url_decode_xml_encode kv.2 ++ "</" ++ url_decode_xml_encode kv.1 ++ ">")
        if get_string_size dial_data > DIAL_DATA_SIZE then
          .ok (.error 500 "500 Internal Server Error") { s1 with mutexHeld := false }
        else
          match app.dial_cb_status with
          | .error e => .exc e s1
          | .ok local_state0 =>
            let apps2 := updateFirstApp s1.apps app_name (fun a => { a with state := local_state0 })
            let local_state :=
              if client_version < (209 / 100 : ℚ) ∧ local_state0 = DialStatus.HIDE then
                DialStatus.STOPPED
              else local_state0
            let dial_state :=
              if local_state = DialStatus.HIDE then "hidden"
              else if local_state = DialStatus.RUNNING then "running"
              else "stopped"
            .ok (.response (STATUS_RESPONSE_fmt origin_header DIAL_VERSION app_name "true"
                dial_state
                (if local_state = DialStatus.STOPPED then ""
                 else "\r\n  <link rel=\"run\" href=\"run\"/>")
                (dial_data ++ "\r\n  ")))
              { apps := apps2, mutexHeld := false, fs := s1.fs }

/-- Tail of `handle_app_start` after the validations: decode the payload,
invoke the start callback (a raise propagates with the mutex held), store the
new state and answer according to it. The source's `ERROR_FORBIDDEN` branch
is `call_error(400, '403 Forbidden')`: status code 400 with reason text
`403 Forbidden`. On success the payload is snapshotted into `last_payload`. -/
def app_start_finish (cfg : Config) (s1 : ServerState) (app_name : String)
    (origin_header : Option String) (body : PyBytes)
    (query_params : List (String × List String)) (app : DialApp)
    (additional_data_param : Option String) : HandlerResult :=
  let payload := pyDecodeAscii body
  match app.dial_cb_start payload query_params additional_data_param with
  | .error e => .exc e s1
  | .ok newState =>
    let apps2 := updateFirstApp s1.apps app_name (fun a => { a with state := newState })
    if newState = DialStatus.RUNNING then
      let apps3 := updateFirstApp apps2 app_name (fun a => { a with last_payload := payload })
      .ok (.response (CREATED_RESPONSE_fmt cfg.local_ip cfg.dial_port app_name origin_header))
        { apps := apps3, mutexHeld := false, fs := s1.fs }
    else if newState = DialStatus.ERROR_FORBIDDEN then
      .ok (.error 400 "403 Forbidden") { apps := apps2, mutexHeld := false, fs := s1.fs }
    else if newState = DialStatus.ERROR_UNAUTH then
      .ok (.error 401 "401 Unauthorized") { apps := apps2, mutexHeld := false, fs := s1.fs }
    else if newState = DialStatus.ERROR_NOT_IMPLEMENTED then
      .ok (.error 501 "501 Not Implemented") { apps := apps2, mutexHeld := false, fs := s1.fs }
    else
      .ok (.error 503 "503 Service Unavailable") { apps := apps2, mutexHeld := false, fs := s1.fs }

/-- `handle_app_start`: try-lock (500 on contention), lookup (404), size
ceiling (413 above `DIAL_MAX_PAYLOAD`), `is_ascii` charset check (400 on a
`False` result; a raise from `is_ascii` propagates with the mutex held), the
additional-data URL ceiling, then `app_start_finish`. `body_data_size` equals
the length of the received body (the model assumes a well-formed
content-length). -/
def handle_app_start (cfg : Config) (s : ServerState) (app_name : String)
    (origin_header : Option String) (body : PyBytes)
    (query_params : List (String × List String)) : HandlerResult :=
  if s.mutexHeld then .ok (.error 500 "500 Internal Server Error") s
  else
    let s1 : ServerState := { s with mutexHeld := true }
    match find_app s1.apps app_name with
    | none => .ok (.error 404 "Not found") { s1 with mutexHeld := false }
    | some app =>
      if body.length > DIAL_MAX_PAYLOAD then
        .ok (.error 413 "413 Request Entity Too Large") { s1 with mutexHeld := false }
      else
        match is_ascii (.bytes body) with
        | .error e => .exc e s1
        | .ok a =>
          if !a then .ok (.error 400 "400 Bad Request") { s1 with mutexHeld := false }
          else
            if app.USE_ADDITIONAL_DATA then
              let url := "http://127.0.0.1:" ++ toString cfg.dial_port ++ "/apps/" ++
                app_name ++ "/dial_data"
              if get_string_size url > DIAL_MAX_ADDITIONALURL then
                .ok (.error 500 "500 Internal Server Error") { s1 with mutexHeld := false }
              else app_start_finish cfg s1 app_name origin_header body query_params app (some url)
            else app_start_finish cfg s1 app_name origin_header body query_params app none

/-- `handle_app_stop`: try-lock, refresh state via the status callback (a
raise propagates with the mutex held), 404 for an unknown or already stopped
application, otherwise the stop callback runs and the state is forced to
`STOPPED`. -/
def handle_app_stop (_cfg : Config) (s : ServerState) (app_name : String)
    (origin_header : Option String) : HandlerResult :=
  if s.mutexHeld then .ok (.error 500 "500 Internal Server Error") s
  else
    let s1 : ServerState := { s with mutexHeld := true }
    match find_app s1.apps app_name with
    | none => .ok (.error 404 "Not found") { s1 with mutexHeld := false }
    | some app =>
      match app.dial_cb_status with
      | .error e => .exc e s1
      | .ok st =>
        let apps2 := updateFirstApp s1.apps app_name (fun a => { a with state := st })
        if st = DialStatus.STOPPED then
          .ok (.error 404 "Not found") { apps := apps2, mutexHeld := false, fs := s1.fs }
        else
          match app.dial_cb_stop with
          | .error e => .exc e { apps := apps2, mutexHeld := true, fs := s1.fs }
          | .ok _ =>
            let apps3 := updateFirstApp apps2 app_name
              (fun a => { a with state := DialStatus.STOPPED })
            .ok (.response (STOP_RESPONSE_fmt origin_header))
              { apps := apps3, mutexHeld := false, fs := s1.fs }

/-- `handle_app_hide`: try-lock, refresh state, 404 unless the refreshed
state is `RUNNING` or `HIDE`, then the hide callback; any result other than
`HIDE` is answered with 501 (the reference hide is unimplemented). -/
def handle_app_hide (_cfg : Config) (s : ServerState) (app_name : String)
    (origin_header : Option String) : HandlerResult :=
  if s.mutexHeld then .ok (.error 500 "500 Internal Server Error") s
  else
    let s1 : ServerState := { s with mutexHeld := true }
    match find_app s1.apps app_name with
    | none => .ok (.error 404 "Not found") { s1 with mutexHeld := false }
    | some app =>
      match app.dial_cb_status with
      | .error e => .exc e s1
      | .ok st =>
        let apps2 := updateFirstApp s1.apps app_name (fun a => { a with state := st })
        if ¬ (st = DialStatus.RUNNING ∨ st = DialStatus.HIDE) then
          .ok (.error 404 "Not found") { apps := apps2, mutexHeld := false, fs := s1.fs }
        else
          match app.dial_cb_hide with
          | .error e => .exc e { apps := apps2, mutexHeld := true, fs := s1.fs }
          | .ok hideStatus =>
            if hideStatus ≠ DialStatus.HIDE then
              .ok (.error 501 "501 Not Implemented")
                { apps := apps2, mutexHeld := false, fs := s1.fs }
            else
              let apps3 := updateFirstApp apps2 app_name
                (fun a => { a with state := DialStatus.HIDE })
              .ok (.response (RESPONSE_OK_fmt origin_header))
                { apps := apps3, mutexHeld := false, fs := s1.fs }

/-- Tail of `handle_dial_data` after the payload was selected: `is_ascii` on
the selected data (a raise propagates with the mutex held; on the GET path
the data is a `str`, so `is_ascii` raises `AttributeError` unconditionally),
then `data.decode('ascii')`, `urlparse(...).query`, `parse_qs`, first value
of each key, persistence, and in-memory replacement of `dial_data`. -/
def dial_data_finish (_cfg : Config) (s2 : ServerState) (app_name : String)
    (origin_header : Option String) (data : PyData) : HandlerResult :=
  match is_ascii data with
  | .error e => .exc e s2
  | .ok a =>
    if !a then .ok (.error 400 "400 Bad Request") { s2 with mutexHeld := false }
    else
      match data with
      | .str _ => .exc .attributeError s2
      | .bytes bs =>
        let sdata := pyDecodeAscii bs
        let q := pyUrlsplitQuery sdata
        let dial_data := (pyParseQs q).map (fun kv => (kv.1, kv.2.headD ""))
        let fs2 := store_dial_data app_name dial_data s2.fs
        let apps3 := updateFirstApp s2.apps app_name (fun a => { a with dial_data := dial_data })
        .ok (.response (RESPONSE_OK_fmt origin_header))
          { apps := apps3, mutexHeld := false, fs := fs2 }

/-- `handle_dial_data`: try-lock, refresh state via the status callback, 404
for an unknown application, then either the URL query string (GET, a `str`)
or the request body (POST, `bytes`) is taken as payload, with the 4096-byte
ceiling, and passed to `dial_data_finish`. -/
def handle_dial_data (cfg : Config) (s : ServerState) (app_name : String)
    (origin_header : Option String) (use_payload : Bool) (url : String)
    (body : PyBytes) : HandlerResult :=
  if s.mutexHeld then .ok (.error 500 "500 Internal Server Error") s
  else
    let s1 : ServerState := { s with mutexHeld := true }
    match find_app s1.apps app_name with
    | none => .ok (.error 404 "Not found") { s1 with mutexHeld := false }
    | some app =>
      match app.dial_cb_status with
      | .error e => .exc e s1
      | .ok st =>
        let s2 : ServerState :=
          { apps := updateFirstApp s1.apps app_name (fun a => { a with state := st }),
            mutexHeld := true, fs := s1.fs }
        if !use_payload then
          let dataStr := pyUrlsplitQuery url
          if get_string_size dataStr > DIAL_DATA_MAX_PAYLOAD then
            .ok (.error 413 "413 Request Entity Too Large") { s2 with mutexHeld := false }
          else dial_data_finish cfg s2 app_name origin_header (.str dataStr)
        else
          if body.length > DIAL_DATA_MAX_PAYLOAD then
            .ok (.error 413 "413 Request Entity Too Large") { s2 with mutexHeld := false }
          else dial_data_finish cfg s2 app_name origin_header (.bytes body)

/-- `register_app`: reject a missing addon id or application name and a
duplicate name (the registry is unchanged); otherwise initialize the state to
`STOPPED`, load previously stored dial-data (a `json` failure propagates) and
append. The sqlite persistence handle is an external collaborator and is not
part of the model beyond the `ENABLE_DATABASE` flag. -/
def register_app (app_class : DialApp) (apps : List DialApp) (fs : FileStore) :
    Except PyExc (List DialApp) :=
  if app_class.KODI_ADDON_ID = "" ∨ app_class.DIAL_APP_NAME = "" then .ok apps
  else
    match find_app apps app_class.DIAL_APP_NAME with
    | some _ => .ok apps
    | none =>
      match retrieve_dial_data app_class.DIAL_APP_NAME fs with
      | .error e => .error e
      | .ok dd =>
        .ok (apps ++ [{ app_class with state := DialStatus.STOPPED, dial_data := dd }])

/-! ### Routing -/

/-- One inbound HTTP request as `DSHttpRequestHandler` sees it: `url` is
`self.path` (the request target, query string included), `body` the bytes
read per content-length. -/
structure Request where
  method : String
  url : String
  client_address : String
  origin_header : Option String
  host_header : Option String
  body : PyBytes

/-- `handle_request`: the routing `if`/`elif` chain, evaluated in source
order (`/run` suffix, `/apps/` prefix, `/hide` suffix, `/dial_data` suffix —
so a `/apps/{name}/dial_data` target is captured by the `/apps/` branch).
Unrouted paths fall through with no response sent. -/
def handle_request (cfg : Config) (s : ServerState) (req : Request) : HandlerResult :=
  let req_path := pyUrlsplitPath req.url
  let query_params := pyParseQs (pyUrlsplitQuery req.url)
  if pyEndsWith req_path "/run" then
    match pyNegIndex2 (pySplitChar '/' req_path.data) with
    | .error e => .exc e s
    | .ok seg =>
      let app_name := pyTake 255 seg
      if originTruthy req.origin_header &&
          !is_allowed_origin s.mutexHeld s.apps (fmtOrigin req.origin_header) app_name then
        .ok (.error 403 "Forbidden") s
      else if req.method = "OPTIONS" then
        .ok (.response (OPTIONS_RESPONSE_fmt req.origin_header "DELETE, OPTIONS")) s
      else if app_name ≠ "" ∧ req.method = "DELETE" then
        handle_app_stop cfg s app_name req.origin_header
      else .ok (.error 501 "Not Implemented") s
  else if pyStartsWith req_path "/apps/" then
    let app_name := pyReplace req_path "/apps/" ""
    if originTruthy req.origin_header &&
        !is_allowed_origin s.mutexHeld s.apps (fmtOrigin req.origin_header) app_name then
      .ok (.error 403 "Forbidden") s
    else if req.method = "OPTIONS" then
      .ok (.response (OPTIONS_RESPONSE_fmt req.origin_header "GET, POST, OPTIONS")) s
    else if req.method = "POST" then
      handle_app_start cfg s app_name req.origin_header req.body query_params
    else if req.method = "GET" then
      handle_app_status cfg s app_name req.origin_header query_params
    else .ok (.error 501 "Not Implemented") s
  else if pyEndsWith req_path "/hide" then
    match pyNegIndex2 (pySplitChar '/' req_path.data) with
    | .error e => .exc e s
    | .ok seg =>
      let app_name := pyTake 255 seg
      if originTruthy req.origin_header &&
          !is_allowed_origin s.mutexHeld s.apps (fmtOrigin req.origin_header) app_name then
        .ok (.error 403 "Forbidden") s
      else if req.method = "OPTIONS" then
        .ok (.response (OPTIONS_RESPONSE_fmt req.origin_header "POST, OPTIONS")) s
      else if app_name ≠ "" ∧ req.method = "POST" then
        handle_app_hide cfg s app_name req.origin_header
      else .ok (.error 501 "Not Implemented") s
  else if pyEndsWith req_path "/dial_data" then
    if req.client_address = "127.0.0.1" ∨ req.client_address = cfg.local_ip then
      match pyNegIndex2 (pySplitChar '/' req_path.data) with
      | .error e => .exc e s
      | .ok app_name =>
        if app_name = "" then .ok (.error 500 "500 Internal Server Error") s
        else if originTruthy req.origin_header &&
            !is_allowed_origin s.mutexHeld s.apps (fmtOrigin req.origin_header) app_name then
          .ok (.error 403 "Forbidden") s
        else if req.method = "OPTIONS" then
          .ok (.response (OPTIONS_RESPONSE_fmt req.origin_header "POST, OPTIONS")) s
        else
          handle_dial_data cfg s app_name req.origin_header (req.method = "POST") req.url req.body
    else .ok (.error 404 "Not found") s
  else .ok .nothing s

/-- `DSHttpRequestHandler.route`: serve the device descriptor directly, or
run `handle_request` under the catch-all `except` that logs and answers
`call_error(500, 'ERROR')` — note the post-state of the exception (a mutex
left held stays held). -/
def route (cfg : Config) (s : ServerState) (req : Request) : HttpOut × ServerState :=
  if pyUrlsplitPath req.url = "/ssdp/device-desc.xml" then
    (.response (fix_return_chars (DD_XML_fmt cfg.local_ip cfg.dial_port cfg.friendly_name
      cfg.manufacturer_name cfg.model_name cfg.device_uuid)), s)
  else
    match handle_request cfg s req with
    | .ok out s' => (out, s')
    | .exc _ s' => (.error 500 "ERROR", s')

/-! ### Concrete fixtures used by the claim theorems -/

/-- A registered application in the shape of `dial_app_test.DialApp` after
registration: well-behaved callbacks (start succeeds, status reports
stopped, hide is unimplemented). -/
def testApp : DialApp :=
  { KODI_ADDON_ID := "plugin.video.test"
    DIAL_APP_NAME := "Test"
    DIAL_ORIGINS := []
    USE_ADDITIONAL_DATA := false
    ENABLE_DATABASE := false
    state := DialStatus.STOPPED
    last_payload := ""
    dial_data := []
    dial_cb_start := fun _ _ _ => .ok DialStatus.RUNNING
    dial_cb_stop := .ok ()
    dial_cb_status := .ok DialStatus.STOPPED
    dial_cb_hide := .ok DialStatus.ERROR_NOT_IMPLEMENTED }

/-- A concrete device configuration. -/
def testConfig : Config :=
  { local_ip := "192.168.1.10", dial_port := 8756, friendly_name := "Kodi",
    manufacturer_name := "ACME", model_name := "KodiCast", device_uuid := "deadbeef" }

/-- Server state with `testApp` registered, the mutex free and no stored
files. -/
def testState : ServerState := { apps := [testApp], mutexHeld := false, fs := [] }

/-- A plain `POST /apps/Test` start request with an empty body. -/
def startReq : Request :=
  { method := "POST", url := "/apps/Test", client_address := "192.168.1.20",
    origin_header := none, host_header := none, body := [] }

/-- `testApp` with a start callback that reports `ERROR_FORBIDDEN`. -/
def forbiddenApp : DialApp :=
  { testApp with dial_cb_start := fun _ _ _ => .ok DialStatus.ERROR_FORBIDDEN }

/-- `testApp` with a status callback that raises. -/
def raisingApp : DialApp :=
  { testApp with dial_cb_status := .error (.appError "status callback failed") }

/-- `testApp` with a status callback that reports `HIDE`. -/
def hiddenApp : DialApp :=
  { testApp with dial_cb_status := .ok DialStatus.HIDE }

/-- `testApp` declaring one allowed https origin pattern. -/
def originsApp : DialApp :=
  { testApp with DIAL_ORIGINS := ["https://allowed\\.example"] }

/-- `str.encode('utf-8')` for ASCII-only strings (used to build request
bodies in concrete scenarios). -/
def pyEncodeAscii (s : String) : PyBytes := s.data.map Char.toNat

/-- Does a handler result carry a 413 entity-too-large error response? -/
def isError413 : HandlerResult → Bool
  | .ok (.error 413 _) _ => true
  | _ => false

/-! ### Supporting lemmas for the JSON round trip -/

/-- `hexVal?` inverts `hexDig` on digit values. -/
theorem hexVal_hexDig : ∀ d, d < 16 → hexVal? (hexDig d) = some d := by decide

/-- `parseHex4` inverts `toHex4` below `0x10000`. -/
theorem parseHex4_toHex4 (n : Nat) (h : n < 65536) (t : List Char) :
    parseHex4 (toHex4 n ++ t) = some (n, t) := by
  unfold toHex4
  simp only [List.cons_append, List.nil_append, parseHex4]
  rw [hexVal_hexDig _ (Nat.mod_lt _ (by norm_num)),
      hexVal_hexDig _ (Nat.mod_lt _ (by norm_num)),
      hexVal_hexDig _ (Nat.mod_lt _ (by norm_num)),
      hexVal_hexDig _ (Nat.mod_lt _ (by norm_num))]
  simp only [Option.some.injEq, Prod.mk.injEq, and_true]
  omega

/-- A `Char`'s code point is a Unicode scalar value. -/
theorem char_toNat_valid (c : Char) :
    c.toNat < 0xd800 ∨ (0xdfff < c.toNat ∧ c.toNat < 0x110000) :=
  c.valid

/-- Decoding a `\uXXXX` escape of a non-surrogate scalar value. -/
theorem parseEsc_u (n : Nat) (hn : n < 65536) (hns : ¬ (0xd800 ≤ n ∧ n ≤ 0xdbff))
    (hval : n.isValidChar) (t : List Char) :
    parseEsc ('u' :: (toHex4 n ++ t)) = some (Char.ofNat n, t) := by
  simp only [parseEsc]
  rw [parseHex4_toHex4 n hn]
  simp only [if_neg hns, if_pos hval]
  rfl

/-- Decoding a surrogate pair of `\uXXXX` escapes. -/
theorem parseEsc_surrogate (n1 n2 : Nat) (hs1 : 0xd800 ≤ n1 ∧ n1 ≤ 0xdbff)
    (hs2 : 0xdc00 ≤ n2 ∧ n2 ≤ 0xdfff) (t : List Char) :
    parseEsc ('u' :: (toHex4 n1 ++ ('\\' :: 'u' :: (toHex4 n2 ++ t)))) =
      some (Char.ofNat (0x10000 + (n1 - 0xd800) * 0x400 + (n2 - 0xdc00)), t) := by
  have hn1 : n1 < 65536 := by omega
  have hn2 : n2 < 65536 := by omega
  simp only [parseEsc]
  rw [parseHex4_toHex4 n1 hn1]
  simp only [if_pos hs1, parseHex4_toHex4 n2 hn2, if_pos hs2]
  rfl

/-- The string parser stops at an unescaped closing quote. -/
theorem psb_quote (fuel : Nat) (t : List Char) :
    parseStringBodyF (fuel + 1) ('"' :: t) = some ([], t) := by
  simp only [parseStringBodyF]
  rw [if_pos trivial]

/-- One escape-sequence step of the string parser. -/
theorem psb_esc_step (fuel : Nat) (e r2 : List Char) (ch : Char)
    (h : parseEsc e = some (ch, r2)) :
    parseStringBodyF (fuel + 1) ('\\' :: e) =
      match parseStringBodyF fuel r2 with
      | none => none
      | some (s, r) => some (ch :: s, r) := by
  simp only [parseStringBodyF]
  rw [if_pos trivial, h]
  rw [if_neg (show ¬ ('\\' : Char) = '"' by decide)]

/-- One literal-character step of the string parser. -/
theorem psb_lit_step (fuel : Nat) (c : Char) (t : List Char)
    (h1 : ¬ c = '"') (h2 : ¬ c = '\\') (h3 : ¬ c.toNat < 0x20) :
    parseStringBodyF (fuel + 1) (c :: t) =
      match parseStringBodyF fuel t with
      | none => none
      | some (s, r) => some (c :: s, r) := by
  simp only [parseStringBodyF]
  rw [if_neg h1, if_neg h2, if_neg h3]

/-- Parsing the escape of any one character consumes exactly that escape and
yields the character back. -/
theorem parseStringBodyF_escChar (c : Char) (t : List Char) (fuel : Nat) :
    parseStringBodyF (fuel + 1) (escChar c ++ t) =
      match parseStringBodyF fuel t with
      | none => none
      | some (s, r) => some (c :: s, r) := by
  by_cases h1 : c = '"'
  · subst h1
    exact psb_esc_step fuel ('"' :: t) t '"' rfl
  by_cases h2 : c = '\\'
  · subst h2
    exact psb_esc_step fuel ('\\' :: t) t '\\' rfl
  by_cases h3 : c = '\x08'
  · subst h3
    exact psb_esc_step fuel ('b' :: t) t '\x08' rfl
  by_cases h4 : c = '\x09'
  · subst h4
    exact psb_esc_step fuel ('t' :: t) t '\x09' rfl
  by_cases h5 : c = '\x0a'
  · subst h5
    exact psb_esc_step fuel ('n' :: t) t '\x0a' rfl
  by_cases h6 : c = '\x0c'
  · subst h6
    exact psb_esc_step fuel ('f' :: t) t '\x0c' rfl
  by_cases h7 : c = '\x0d'
  · subst h7
    exact psb_esc_step fuel ('r' :: t) t '\x0d' rfl
  by_cases h8 : 0x20 ≤ c.toNat ∧ c.toNat ≤ 0x7e
  · have he : escChar c = [c] := by
      simp only [escChar]
      rw [if_neg h1, if_neg h2, if_neg h3, if_neg h4, if_neg h5, if_neg h6, if_neg h7,
        if_pos h8]
    rw [he, List.cons_append, List.nil_append]
    exact psb_lit_step fuel c t h1 h2 (by omega)
  by_cases h9 : c.toNat < 0x10000
  · have hv := char_toNat_valid c
    have hns : ¬ (0xd800 ≤ c.toNat ∧ c.toNat ≤ 0xdbff) := by omega
    have hval : (c.toNat).isValidChar := by
      unfold Nat.isValidChar
      omega
    have he : escChar c = '\\' :: 'u' :: toHex4 c.toNat := by
      simp only [escChar]
      rw [if_neg h1, if_neg h2, if_neg h3, if_neg h4, if_neg h5, if_neg h6, if_neg h7,
        if_neg h8, if_pos h9]
    rw [he, List.cons_append, List.cons_append]
    rw [psb_esc_step fuel ('u' :: (toHex4 c.toNat ++ t)) t (Char.ofNat c.toNat)
      (parseEsc_u c.toNat h9 hns hval t), Char.ofNat_toNat]
  · have hv := char_toNat_valid c
    have hs1 : 0xd800 ≤ 0xd800 + (c.toNat - 0x10000) / 1024 ∧
        0xd800 + (c.toNat - 0x10000) / 1024 ≤ 0xdbff := by
      have hq : (c.toNat - 0x10000) / 1024 < 1024 := by omega
      omega
    have hs2 : 0xdc00 ≤ 0xdc00 + (c.toNat - 0x10000) % 1024 ∧
        0xdc00 + (c.toNat - 0x10000) % 1024 ≤ 0xdfff := by
      have hm := Nat.mod_lt (c.toNat - 0x10000) (show 0 < 1024 by norm_num)
      omega
    have he : escChar c = ('\\' :: 'u' :: toHex4 (0xd800 + (c.toNat - 0x10000) / 1024)) ++
        ('\\' :: 'u' :: toHex4 (0xdc00 + (c.toNat - 0x10000) % 1024)) := by
      simp only [escChar]
      rw [if_neg h1, if_neg h2, if_neg h3, if_neg h4, if_neg h5, if_neg h6, if_neg h7,
        if_neg h8, if_neg h9]
    have harg : 0x10000 + (0xd800 + (c.toNat - 0x10000) / 1024 - 0xd800) * 0x400 +
        (0xdc00 + (c.toNat - 0x10000) % 1024 - 0xdc00) = c.toNat := by
      have hm := Nat.mod_lt (c.toNat - 0x10000) (show 0 < 1024 by norm_num)
      omega
    rw [he]
    simp only [List.cons_append, List.append_assoc]
    rw [psb_esc_step fuel
      ('u' :: (toHex4 (0xd800 + (c.toNat - 0x10000) / 1024) ++
        ('\\' :: 'u' :: (toHex4 (0xdc00 + (c.toNat - 0x10000) % 1024) ++ t)))) t
      (Char.ofNat (0x10000 + (0xd800 + (c.toNat - 0x10000) / 1024 - 0xd800) * 0x400 +
        (0xdc00 + (c.toNat - 0x10000) % 1024 - 0xdc00)))
      (parseEsc_surrogate (0xd800 + (c.toNat - 0x10000) / 1024)
        (0xdc00 + (c.toNat - 0x10000) % 1024) hs1 hs2 t)]
    rw [harg, Char.ofNat_toNat]

/-- The string parser inverts the serializer's escaping: reading the escaped
text up to the closing quote recovers the original characters. The fuel needs
one unit per decoded character plus one for the quote. -/
theorem parseStringBodyF_round : ∀ (s t : List Char) (fuel : Nat),
    s.length + 1 ≤ fuel →
    parseStringBodyF fuel (escString s ++ '"' :: t) = some (s, t) := by
  intro s
  induction s with
  | nil =>
    intro t fuel hf
    obtain ⟨f, rfl⟩ : ∃ f, fuel = f + 1 := ⟨fuel - 1, by omega⟩
    exact psb_quote f t
  | cons c cs ih =>
    intro t fuel hf
    obtain ⟨f, rfl⟩ : ∃ f, fuel = f + 1 := ⟨fuel - 1, by omega⟩
    rw [show escString (c :: cs) = escChar c ++ escString cs from rfl, List.append_assoc,
      parseStringBodyF_escChar c (escString cs ++ '"' :: t) f,
      ih t f (by simpa using hf)]

/-- Escaping a character never produces the empty text. -/
theorem escChar_length_pos (c : Char) : 0 < (escChar c).length := by
  unfold escChar
  split_ifs
  all_goals try simp [toHex4]
  by_cases h8 : 32 ≤ c.toNat ∧ c.toNat ≤ 126
  · simp [h8]
  by_cases h9 : c.toNat < 65536
  · simp [h8, h9, toHex4]
  · simp [h8, h9, toHex4]

/-- Escaped text is at least as long as the original. -/
theorem escString_length_ge (s : List Char) : s.length ≤ (escString s).length := by
  induction s with
  | nil => simp [escString]
  | cons c cs ih =>
    have := escChar_length_pos c
    simp only [escString, List.length_append, List.length_cons]
    omega

/-- Whitespace skipping passes a non-whitespace head unchanged. -/
theorem skipWs_cons_not (c : Char) (l : List Char) (h : isJsonWs c = false) :
    skipWs (c :: l) = c :: l := by
  simp [skipWs, List.dropWhile_cons, h]

/-- Whitespace skipping drops a whitespace head. -/
theorem skipWs_cons_ws (c : Char) (l : List Char) (h : isJsonWs c = true) :
    skipWs (c :: l) = skipWs l := by
  simp [skipWs, List.dropWhile_cons, h]

/-- The member loop inverts the serializer on a non-empty member list: it
reads back exactly the serialized pairs and stops after the closing brace. -/
theorem parseMembersF_spec : ∀ (ps : List (String × String)) (p : String × String)
    (t : List Char) (fuel : Nat), ps.length + 1 ≤ fuel →
    parseMembersF fuel (itemChars p ++ (moreChars ps ++ t)) = some (p :: ps, t) := by
  intro ps
  induction ps with
  | nil =>
    intro p t fuel hf
    obtain ⟨f, rfl⟩ : ∃ f, fuel = f + 1 := ⟨fuel - 1, by omega⟩
    obtain ⟨k, v⟩ := p
    simp only [itemChars, moreChars, List.cons_append, List.append_assoc, List.nil_append]
    simp only [parseMembersF]
    rw [parseStringBodyF_round k.data _ _ (by
      have h1 := escString_length_ge k.data
      simp only [List.length_append, List.length_cons]
      omega)]
    simp only []
    rw [skipWs_cons_not ':' _ rfl]
    simp only []
    rw [skipWs_cons_ws ' ' _ rfl, skipWs_cons_not '"' _ rfl]
    simp only []
    rw [parseStringBodyF_round v.data _ _ (by
      have h1 := escString_length_ge v.data
      simp only [List.length_append, List.length_cons]
      omega)]
    simp only []
    rw [skipWs_cons_not '\x7d' _ rfl]
    simp only []
  | cons q qs ih =>
    intro p t fuel hf
    obtain ⟨f, rfl⟩ : ∃ f, fuel = f + 1 := ⟨fuel - 1, by omega⟩
    obtain ⟨k, v⟩ := p
    simp only [itemChars, moreChars, List.cons_append, List.append_assoc, List.nil_append]
    simp only [parseMembersF]
    rw [parseStringBodyF_round k.data _ _ (by
      have h1 := escString_length_ge k.data
      simp only [List.length_append, List.length_cons]
      omega)]
    simp only []
    rw [skipWs_cons_not ':' _ rfl]
    simp only []
    rw [skipWs_cons_ws ' ' _ rfl, skipWs_cons_not '"' _ rfl]
    simp only []
    rw [parseStringBodyF_round v.data _ _ (by
      have h1 := escString_length_ge v.data
      simp only [List.length_append, List.length_cons]
      omega)]
    simp only []
    rw [skipWs_cons_not ',' _ rfl]
    simp only []
    rw [skipWs_cons_ws ' ' _ rfl]
    rw [skipWs_cons_not '"' _ rfl]
    rw [show ('"' : Char) :: (escString q.1.data ++ '"' :: ':' :: ' ' :: '"' ::
        (escString q.2.data ++ '"' :: (moreChars qs ++ t))) =
      itemChars q ++ (moreChars qs ++ t) from by
      simp [itemChars, List.cons_append, List.append_assoc]]
    rw [ih q t f (by simpa using hf)]

/-- `pyDictSet` is a plain append when the key is new. -/
theorem pyDictSet_not_mem (acc : List (String × String)) (k v : String)
    (h : k ∉ acc.map Prod.fst) :
    pyDictSet acc k v = acc ++ [(k, v)] := by
  induction acc with
  | nil => rfl
  | cons a rest ih =>
    obtain ⟨k', v'⟩ := a
    simp only [List.map_cons, List.mem_cons] at h
    push_neg at h
    simp only [pyDictSet, if_neg (Ne.symm h.1), List.cons_append]
    rw [ih h.2]

/-- Folding `pyDictSet` over pairs with keys fresh for the accumulator is a
plain append. -/
theorem toPyDict_foldl_nodup : ∀ (l acc : List (String × String)),
    (acc.map Prod.fst ++ l.map Prod.fst).Nodup →
    l.foldl (fun acc kv => pyDictSet acc kv.1 kv.2) acc = acc ++ l := by
  intro l
  induction l with
  | nil =>
    intro acc _
    simp
  | cons kv rest ih =>
    intro acc h
    obtain ⟨k, v⟩ := kv
    simp only [List.map_cons] at h
    have hnm : k ∉ acc.map Prod.fst := fun hmem =>
      (List.disjoint_of_nodup_append h) hmem (by simp)
    simp only [List.foldl_cons]
    rw [pyDictSet_not_mem acc k v hnm]
    rw [ih (acc ++ [(k, v)]) (by
      simp only [List.map_append, List.map_cons, List.map_nil, List.append_assoc,
        List.singleton_append]
      exact h)]
    simp

/-- `dict(pairs)` is the identity on pair lists with distinct keys. -/
theorem toPyDict_nodup (l : List (String × String)) (h : (l.map Prod.fst).Nodup) :
    toPyDict l = l := by
  unfold toPyDict
  rw [toPyDict_foldl_nodup l [] (by simpa using h)]
  simp

/-- Serialized member text is at least as long as the member list. -/
theorem moreChars_length_ge : ∀ (ps : List (String × String)),
    ps.length ≤ (moreChars ps).length := by
  intro ps
  induction ps with
  | nil => simp [moreChars]
  | cons q qs ih =>
    simp only [moreChars, List.length_cons, List.length_append]
    omega

/-- `json.loads` inverts `json.dumps` on flat string dicts with distinct
keys (a Python `dict` always has distinct keys). -/
theorem pyJsonLoads_dumps (d : List (String × String)) (h : (d.map Prod.fst).Nodup) :
    pyJsonLoads (pyJsonDumps d) = some d := by
  cases d with
  | nil => rfl
  | cons p ps =>
    unfold pyJsonDumps pyJsonLoads
    rw [show (String.mk ('\x7b' :: (itemChars p ++ moreChars ps))).data =
      '\x7b' :: (itemChars p ++ moreChars ps) from rfl]
    rw [skipWs_cons_not '\x7b' _ rfl]
    simp only []
    rw [show itemChars p ++ moreChars ps =
      '"' :: (escString p.1.data ++ '"' :: ':' :: ' ' :: '"' ::
        (escString p.2.data ++ '"' :: moreChars ps)) from by
      simp [itemChars, List.cons_append, List.append_assoc]]
    simp only []
    rw [show ('"' : Char) :: (escString p.1.data ++ '"' :: ':' :: ' ' :: '"' ::
        (escString p.2.data ++ '"' :: moreChars ps)) =
      itemChars p ++ (moreChars ps ++ []) from by
      simp [itemChars, List.cons_append, List.append_assoc]]
    rw [parseMembersF_spec ps p [] _ (by
      have h1 := moreChars_length_ge ps
      have h2 := escString_length_ge p.1.data
      have h3 := escString_length_ge p.2.data
      simp only [List.length_cons, List.length_append, itemChars, moreChars]
      omega)]
    simp only []
    rw [show skipWs [] = [] from rfl]
    rw [if_pos rfl]
    rw [toPyDict_nodup _ h]

/-! ### Claim theorems -/

/-- C1: for an application declaring the single https origin pattern
`https://allowed\.example`, the validator nevertheless accepts the origin
`https://evil.example`, whose host differs from every declared pattern —
`host_matches` is a `TODO` stub that returns `True` for every candidate, so
the host-only comparison the claim describes never rejects anything. This
refutes "an origin with a different host than every declared pattern is
denied" at a concrete input. -/
theorem c1_https_origin_with_different_host_is_accepted :
    is_allowed_origin false [originsApp] "https://evil.example" "Test" = true ∧
    host_matches "https://evil.example" "https://allowed\\.example" = true :=
  ⟨rfl, rfl⟩

/-- C2: a `POST /apps/Test` start request whose one-byte body `0xFF` is not
printable ASCII is answered with status 500 (the generic `except` handler:
`is_ascii` raises `UnicodeDecodeError`, which its `except UnicodeEncodeError`
clause does not catch) and the mutex is left held — not with the claimed 400;
and a body consisting of the unprintable ASCII byte `0x01` is not rejected at
all: the start proceeds and answers 201 Created. -/
theorem c2_non_printable_payload_not_answered_with_400 :
    route testConfig testState { startReq with body := [255] } =
      (.error 500 "ERROR", { apps := [testApp], mutexHeld := true, fs := [] }) ∧
    route testConfig testState { startReq with body := [1] } =
      (.response (CREATED_RESPONSE_fmt "192.168.1.10" 8756 "Test" none),
        { apps := [{ testApp with
                      state := DialStatus.RUNNING
                      last_payload := pyDecodeAscii [1] }],
          mutexHeld := false, fs := [] }) :=
  ⟨rfl, rfl⟩

/-- C3: when the status callback raises during `DELETE /apps/Test/run`, the
exception is caught by the router's catch-all (the client gets the generic
500 and the process survives), but the registry mutex is left held, so a
subsequent `GET /apps/Test` cannot acquire it and is answered 500 as well —
refuting "after the handler finishes the shared registry mutex is no longer
held, so a subsequent request can still acquire it". -/
theorem c3_callback_exception_leaks_registry_mutex :
    route testConfig { apps := [raisingApp], mutexHeld := false, fs := [] }
      { startReq with method := "DELETE", url := "/apps/Test/run" } =
      (.error 500 "ERROR", { apps := [raisingApp], mutexHeld := true, fs := [] }) ∧
    route testConfig { apps := [raisingApp], mutexHeld := true, fs := [] }
      { startReq with method := "GET", url := "/apps/Test" } =
      (.error 500 "500 Internal Server Error",
        { apps := [raisingApp], mutexHeld := true, fs := [] }) :=
  ⟨rfl, rfl⟩

/-- C4: a GET dial-data request from loopback with query `a=1` on the
registered application is answered 500, not the claimed 200: the handler
calls `utils.is_ascii` on the query, which is a `str`, and `str.decode` does
not exist, so `AttributeError` propagates to the catch-all handler (leaking
the mutex). The POST form of the same request works as described: the body
is parsed as a URL, its query decoded keeping the first value of each
repeated key, persisted, and the in-memory `dial_data` replaced. -/
theorem c4_get_dial_data_crashes_instead_of_200 :
    route testConfig testState
      { method := "GET", url := "/cast/Test/dial_data?a=1", client_address := "127.0.0.1",
        origin_header := none, host_header := none, body := [] } =
      (.error 500 "ERROR", { apps := [testApp], mutexHeld := true, fs := [] }) ∧
    route testConfig testState
      { method := "POST", url := "/cast/Test/dial_data", client_address := "127.0.0.1",
        origin_header := none, host_header := none, body := pyEncodeAscii "?a=1&a=2&b=3" } =
      (.response (RESPONSE_OK_fmt none),
        { apps := [{ testApp with dial_data := [("a", "1"), ("b", "3")] }],
          mutexHeld := false,
          fs := [("dial_data/Test.json", pyJsonDumps [("a", "1"), ("b", "3")])] }) :=
  ⟨rfl, rfl⟩

/-- C5: a start request whose callback reports `ERROR_FORBIDDEN` is answered
with status code 400 (the source sends `call_error(400, '403 Forbidden')`:
the reason text says 403 but the code on the wire is 400), refuting the
claimed 403 status. -/
theorem c5_forbidden_start_answered_with_400_not_403 :
    route testConfig { apps := [forbiddenApp], mutexHeld := false, fs := [] } startReq =
      (.error 400 "403 Forbidden",
        { apps := [{ forbiddenApp with state := DialStatus.ERROR_FORBIDDEN }],
          mutexHeld := false, fs := [] }) :=
  rfl

set_option maxRecDepth 8000 in
/-- C6: a status request reporting `clientDialVer=2.09` — a version below
2.1 — on an application whose refreshed state is `HIDE` is answered with
state `hidden`, refuting "a version below 2.1 never observes hidden": the
source's downgrade guard is `client_version < 2.09` (its own comment says
`< 2.1`), so the parsed version `2.09` is not downgraded. The stored state in
the post-state is `HIDE`, as the claim's storage part says. -/
theorem c6_client_2_09_observes_hidden :
    handle_app_status testConfig { apps := [hiddenApp], mutexHeld := false, fs := [] }
      "Test" none [("clientDialVer", ["2.09"])] =
      .ok (.response (STATUS_RESPONSE_fmt none DIAL_VERSION "Test" "true" "hidden"
          "\r\n  <link rel=\"run\" href=\"run\"/>" "\r\n  "))
        { apps := [{ hiddenApp with state := DialStatus.HIDE }],
          mutexHeld := false, fs := [] } ∧
    pyFloat "2.09" = .ok ((209 : ℚ) / 100) ∧ (209 : ℚ) / 100 < 21 / 10 := by
  have h2 : pyFloat "2.09" = .ok ((209 : ℚ) / 100) := by
    have h : pyFloat "2.09" =
        .ok ((natOfDigits ['2'] * 10 ^ (['0', '9'] : List Char).length +
          natOfDigits ['0', '9'] : ℚ) / 10 ^ (['0', '9'] : List Char).length) := rfl
    rw [h, show natOfDigits ['2'] = 2 from rfl, show natOfDigits ['0', '9'] = 9 from rfl]
    norm_num
  refine ⟨?_, h2, by norm_num⟩
  unfold handle_app_status
  rw [show qpFirst [("clientDialVer", ["2.09"])] "clientDialVer" "0.0" = "2.09" from rfl, h2]
  norm_num [find_app, hiddenApp, testApp, List.find?, get_string_size, DIAL_DATA_SIZE,
    DialStatus.HIDE, DialStatus.RUNNING, DialStatus.STOPPED, updateFirstApp]
  rfl

/-- C7: every registry-touching handler (status, start, stop, hide,
dial-data), invoked while the shared mutex is already held, answers 500
immediately and returns the state it was given — registry, every
application's fields, and file store unchanged. The status handler parses
`clientDialVer` before touching the mutex, so the statement assumes that
parse succeeds (with any value). -/
theorem c7_contention_500_registry_unchanged :
    ∀ (cfg : Config) (apps : List DialApp) (fs : FileStore) (app_name : String)
      (origin : Option String) (qp : List (String × List String)) (body : PyBytes)
      (use_payload : Bool) (url : String) (q : ℚ),
      pyFloat (qpFirst qp "clientDialVer" "0.0") = .ok q →
      handle_app_status cfg ⟨apps, true, fs⟩ app_name origin qp =
        .ok (.error 500 "500 Internal Server Error") ⟨apps, true, fs⟩ ∧
      handle_app_start cfg ⟨apps, true, fs⟩ app_name origin body qp =
        .ok (.error 500 "500 Internal Server Error") ⟨apps, true, fs⟩ ∧
      handle_app_stop cfg ⟨apps, true, fs⟩ app_name origin =
        .ok (.error 500 "500 Internal Server Error") ⟨apps, true, fs⟩ ∧
      handle_app_hide cfg ⟨apps, true, fs⟩ app_name origin =
        .ok (.error 500 "500 Internal Server Error") ⟨apps, true, fs⟩ ∧
      handle_dial_data cfg ⟨apps, true, fs⟩ app_name origin use_payload url body =
        .ok (.error 500 "500 Internal Server Error") ⟨apps, true, fs⟩ := by
  intro cfg apps fs app_name origin qp body use_payload url q hq
  refine ⟨?_, rfl, rfl, rfl, rfl⟩
  unfold handle_app_status
  rw [hq]
  rfl

/-- Witness for C7 at a concrete held-mutex state. -/
theorem c7_contention_witness :
    handle_app_status testConfig ⟨[testApp], true, []⟩ "Test" none [] =
      .ok (.error 500 "500 Internal Server Error") ⟨[testApp], true, []⟩ ∧
    handle_app_start testConfig ⟨[testApp], true, []⟩ "Test" none [] [] =
      .ok (.error 500 "500 Internal Server Error") ⟨[testApp], true, []⟩ ∧
    handle_app_stop testConfig ⟨[testApp], true, []⟩ "Test" none =
      .ok (.error 500 "500 Internal Server Error") ⟨[testApp], true, []⟩ ∧
    handle_app_hide testConfig ⟨[testApp], true, []⟩ "Test" none =
      .ok (.error 500 "500 Internal Server Error") ⟨[testApp], true, []⟩ ∧
    handle_dial_data testConfig ⟨[testApp], true, []⟩ "Test" none true "/x/Test/dial_data" [] =
      .ok (.error 500 "500 Internal Server Error") ⟨[testApp], true, []⟩ :=
  c7_contention_500_registry_unchanged testConfig [testApp] [] "Test" none [] [] true
    "/x/Test/dial_data"
    ((natOfDigits ['0'] * 10 ^ (['0'] : List Char).length +
      natOfDigits ['0'] : ℚ) / 10 ^ (['0'] : List Char).length) rfl

/-- C8: registration with a non-empty addon id and a fresh non-empty name
appends an application whose name equals the registered name and whose state
is `STOPPED`, and `find_app` with that name returns exactly it; registering
when the name is already present leaves the registry unchanged, so the first
registrant stays the one `find_app` returns. -/
theorem c8_register_find_first_wins :
    ∀ (apps : List DialApp) (fs : FileStore) (a : DialApp) (dd : List (String × String)),
      a.KODI_ADDON_ID ≠ "" → a.DIAL_APP_NAME ≠ "" →
      ((find_app apps a.DIAL_APP_NAME = none →
        retrieve_dial_data a.DIAL_APP_NAME fs = .ok dd →
        register_app a apps fs =
          .ok (apps ++ [{ a with state := DialStatus.STOPPED, dial_data := dd }]) ∧
        find_app (apps ++ [{ a with state := DialStatus.STOPPED, dial_data := dd }])
            a.DIAL_APP_NAME =
          some { a with state := DialStatus.STOPPED, dial_data := dd } ∧
        ({ a with state := DialStatus.STOPPED, dial_data := dd }).DIAL_APP_NAME =
          a.DIAL_APP_NAME ∧
        ({ a with state := DialStatus.STOPPED, dial_data := dd }).state = DialStatus.STOPPED) ∧
       (∀ b, find_app apps a.DIAL_APP_NAME = some b → register_app a apps fs = .ok apps)) := by
  intro apps fs a dd h1 h2
  constructor
  · intro hfind hret
    refine ⟨?_, ?_, rfl, rfl⟩
    · unfold register_app
      rw [if_neg (by simp [h1, h2]), hfind, hret]
    · unfold find_app at hfind ⊢
      rw [List.find?_append, hfind]
      simp
  · intro b hfound
    unfold register_app
    rw [if_neg (by simp [h1, h2]), hfound]

/-- Witness for C8: fresh registration of `testApp` on an empty registry, and
duplicate registration on a registry already holding it. -/
theorem c8_register_witness :
    (register_app testApp [] [] =
        .ok [{ testApp with state := DialStatus.STOPPED, dial_data := [] }] ∧
      find_app [{ testApp with state := DialStatus.STOPPED, dial_data := [] }] "Test" =
        some { testApp with state := DialStatus.STOPPED, dial_data := [] } ∧
      ({ testApp with state := DialStatus.STOPPED, dial_data := ([] : List (String × String)) }).DIAL_APP_NAME = "Test" ∧
      ({ testApp with state := DialStatus.STOPPED, dial_data := ([] : List (String × String)) }).state = DialStatus.STOPPED) ∧
    register_app testApp [testApp] [] = .ok [testApp] :=
  ⟨(c8_register_find_first_wins [] [] testApp [] (by decide) (by decide)).1 rfl rfl,
   (c8_register_find_first_wins [testApp] [] testApp [] (by decide) (by decide)).2 testApp rfl⟩

/-- C9: on a registered application with the mutex free, a start body of
exactly 4096 bytes is never rejected with 413, while a 4097-byte body is
answered 413 (before the charset check, so its content does not matter). -/
theorem c9_start_payload_boundary :
    ∀ (body : PyBytes),
      (body.length = 4097 →
        handle_app_start testConfig testState "Test" none body [] =
          .ok (.error 413 "413 Request Entity Too Large")
            { apps := [testApp], mutexHeld := false, fs := [] }) ∧
      (body.length = 4096 →
        isError413 (handle_app_start testConfig testState "Test" none body []) = false) := by
  intro body
  constructor
  · intro h
    unfold handle_app_start
    simp [testState, find_app, testApp, List.find?, h, DIAL_MAX_PAYLOAD]
  · intro h
    unfold handle_app_start
    simp only [testState, find_app, testApp, List.find?, h, DIAL_MAX_PAYLOAD]
    norm_num
    cases hb : body.all (fun x => decide (x < 128)) with
    | false => simp [is_ascii, hb, isError413]
    | true => simp [is_ascii, hb, isError413, app_start_finish, DialStatus.RUNNING]

/-- Witness for C9 at concrete 4097- and 4096-byte bodies. -/
theorem c9_boundary_witness :
    handle_app_start testConfig testState "Test" none (List.replicate 4097 65) [] =
      .ok (.error 413 "413 Request Entity Too Large")
        { apps := [testApp], mutexHeld := false, fs := [] } ∧
    isError413 (handle_app_start testConfig testState "Test" none
      (List.replicate 4096 65) []) = false :=
  ⟨(c9_start_payload_boundary (List.replicate 4097 65)).1 (List.length_replicate 4097 65),
   (c9_start_payload_boundary (List.replicate 4096 65)).2 (List.length_replicate 4096 65)⟩

/-- C10: storing any flat string-to-string mapping with distinct keys (the
`dict` invariant) through the DIAL Data Store under any application name, and
retrieving it by the same name — as after a process restart, the retrieval
reading only the file store — yields exactly the stored mapping. -/
theorem c10_dial_data_round_trip : ∀ (name : String) (d : List (String × String))
    (fs : FileStore), (d.map Prod.fst).Nodup →
    retrieve_dial_data name (store_dial_data name d fs) = .ok d := by
  intro name d fs h
  unfold store_dial_data retrieve_dial_data
  simp only [save_file_def, file_exists, load_file_def]
  have hfind : List.find? (fun kv => kv.1 == "dial_data/" ++ name ++ ".json")
      (("dial_data/" ++ name ++ ".json", pyJsonDumps d) :: fs) =
      some ("dial_data/" ++ name ++ ".json", pyJsonDumps d) := by
    rw [List.find?_cons_of_pos]
    simp
  rw [hfind]
  simp only [Option.isSome_some, Bool.not_true, Bool.false_eq_true, if_false,
    Option.map_some']
  rw [pyJsonLoads_dumps d h]
  simp

/-- Witness for C10 at the spec's own example, `{"a": "1", "b": "2"}` for
application `X` on an empty store. -/
theorem c10_round_trip_witness :
    retrieve_dial_data "X" (store_dial_data "X" [("a", "1"), ("b", "2")] []) =
      .ok [("a", "1"), ("b", "2")] :=
  c10_dial_data_round_trip "X" [("a", "1"), ("b", "2")] [] (by decide)

end AppCast
